import Mathlib

/-!
Verification of the adaptive reading tutor core (model_utils.py, agents.py,
main.py) against its specification. Numeric code is embedded over ℚ; the
stateful session loop is embedded as explicit argument passing; Python
attribute lookup in the orchestrator is embedded as a name lookup that can
fail with an AttributeError.
-/

namespace ReadingAssistant

/-! ## model_utils.py -/

/-- The fitted linear regression artifact: three feature coefficients and an
intercept (sklearn LinearRegression with fit_intercept=True). -/
structure LinModel where
  coef_error : ℚ
  coef_wpm : ℚ
  coef_focus : ℚ
  intercept : ℚ
deriving DecidableEq, Repr

/-- Raw (unclipped) linear-regression prediction, model.predict([[e, w, f]])[0]. -/
def predictRaw (m : LinModel) (error_rate wpm focus_score : ℚ) : ℚ :=
  m.intercept + m.coef_error * error_rate + m.coef_wpm * wpm + m.coef_focus * focus_score

/-- predict_difficulty from model_utils.py: raw prediction clipped by
max(0.0, min(1.0, prediction)). -/
def predict_difficulty (m : LinModel) (error_rate wpm focus_score : ℚ) : ℚ :=
  max 0 (min 1 (predictRaw m error_rate wpm focus_score))

/-- One row of the seed dataset in train_initial_model: features
(error_rate, wpm, focus_score) and target difficulty. -/
structure Sample where
  error_rate : ℚ
  wpm : ℚ
  focus_score : ℚ
  target : ℚ
deriving DecidableEq, Repr

/-- The hard-coded bootstrap dataset X, y of train_initial_model. -/
def seedSamples : List Sample :=
  [⟨0, 150, 9/10, 9/10⟩, ⟨1/10, 100, 7/10, 6/10⟩, ⟨3/10, 50, 4/10, 3/10⟩, ⟨1/2, 30, 1/5, 1/10⟩]

/-- Modelled from the spec: sklearn LinearRegression.fit is an external
library call; §4.1 prescribes ordinary least-squares over the 3 features.
This is the OLS objective (sum of squared residuals) on the seed dataset. -/
def olsLoss (m : LinModel) : ℚ :=
  (seedSamples.map fun s => (s.target - predictRaw m s.error_rate s.wpm s.focus_score) ^ 2).sum

/-- The coefficients produced by least-squares fitting of the seed dataset:
since its 4×4 design matrix (with intercept column) is invertible, OLS
interpolates the data exactly, and this model is the unique interpolant. -/
def trainedModel : LinModel := ⟨-2, 1/100, -2, 6/5⟩

/-- Serialization of the model artifact (pickle.dump). Modelled from the
spec: no format is mandated, only an exact coefficient round-trip (§6). -/
def pickle_dump (m : LinModel) : List ℚ :=
  [m.coef_error, m.coef_wpm, m.coef_focus, m.intercept]

/-- Deserialization of the model artifact (pickle.load); a corrupt artifact
yields none, the fatal error case. Modelled from the spec as the exact
inverse of pickle_dump. -/
def pickle_load (bytes : List ℚ) : Option LinModel :=
  match bytes with
  | [a, b, c, d] => some ⟨a, b, c, d⟩
  | _ => none

/-- train_initial_model: fits the seed dataset and writes the artifact;
returns the model together with the bytes written to MODEL_PATH. -/
def train_initial_model : LinModel × List ℚ :=
  (trainedModel, pickle_dump trainedModel)

/-- load_model: if an artifact exists at MODEL_PATH it is unpickled,
otherwise train_initial_model runs. The filesystem is passed explicitly as
the optional artifact contents; the Bool records whether training ran; none
is the fatal corrupt-artifact case. -/
def load_model (artifact : Option (List ℚ)) : Option (LinModel × Bool) :=
  match artifact with
  | some bytes => (pickle_load bytes).map fun m => (m, false)
  | none => some (train_initial_model.1, true)

/-! ## agents.py -/

/-- The assistance dictionary built by AssistAgent.provide_assistance. -/
structure AssistanceConfig where
  visual_cues : List String
  tts_enabled : Bool
  highlight_color : String
deriving DecidableEq, Repr

/-- AssistAgent.provide_assistance: starts from the default configuration and
overwrites fields in the difficulty_index > 0.7 branch, or in the
difficulty_index > 0.4 branch (which leaves tts_enabled at its default
False). -/
def provide_assistance (difficulty_index : ℚ) : AssistanceConfig :=
  if difficulty_index > 7/10 then
    ⟨["syllable_segmentation", "font_spacing_wide"], true, "yellow"⟩
  else if difficulty_index > 4/10 then
    ⟨["font_spacing_medium"], false, "light_blue"⟩
  else
    ⟨[], false, "none"⟩

/-- Accuracy discretization in MentorAgent.provide_feedback. -/
def accuracy_state (error_rate : ℚ) : String :=
  if error_rate < 2/10 then "high" else if error_rate < 5/10 then "medium" else "low"

/-- Focus discretization in MentorAgent.provide_feedback. -/
def focus_state (focus_score : ℚ) : String :=
  if focus_score > 7/10 then "high" else if focus_score > 4/10 then "medium" else "low"

/-- The template library of MentorAgent.provide_feedback, keyed by
(accuracy_state, focus_state). -/
def templates : List ((String × String) × List String) :=
  [(("high", "high"),
    ["Outstanding work! Your reading was accurate and you stayed completely focused.",
     "You\x27re on fire today! Great pronunciation and steady attention."]),
   (("high", "medium"),
    ["Good reading! You nailed the words. Try to keep your eyes on the screen a bit more.",
     "Your accuracy is great. Let\x27s work on staying steady next time."]),
   (("high", "low"),
    ["You read the words correctly, but you seem a bit distracted. Maybe take a quick stretch?",
     "Great accuracy, but I noticed you looking away. Let\x27s try to focus for just 2 more minutes."]),
   (("medium", "high"),
    ["Good focus! There were a few tricky words, but you powered through.",
     "I like how attentive you are. Let\x27s practice some of those harder sounds together."]),
   (("medium", "medium"),
    ["Solid effort. You\x27re doing okay, just keep practicing those long words.",
     "Nice job. Remember to pause at periods to catch your breath."]),
   (("medium", "low"),
    ["It looks like you\x27re getting tired. The words are getting a bit mixed up. Want a break?",
     "Let\x27s pause. Focus is key to getting these words right."]),
   (("low", "high"),
    ["I admire your focus! This text was really hard, wasn\x27t it? Let\x27s try something easier.",
     "You stayed with it, which is great. Don\x27t worry about the mistakes, we\x27ll fix them."]),
   (("low", "medium"),
    ["That was a tough one. You stumbled a bit, but that\x27s how we learn.",
     "Let\x27s slow down. Read one word at a time."]),
   (("low", "low"),
    ["This seems too difficult right now and you look tired. Let\x27s stop and play a game instead.",
     "I think we need a break. We can try this again later when you\x27re fresh."])]

/-- Python dict lookup (templates.get key), searched by key equality. -/
def dictGet (key : String × String) :
    List ((String × String) × List String) → Option (List String)
  | [] => none
  | (k, v) :: rest => if key = k then some v else dictGet key rest

/-- templates.get((accuracy_state, focus_state), ["Good effort today!"]). -/
def templateOptions (key : String × String) : List String :=
  (dictGet key templates).getD ["Good effort today!"]

/-- Python int() applied to a numeric value: truncation toward zero; on a
rational this is t-division of the numerator by the (positive) denominator. -/
def pyInt (q : ℚ) : Int := Int.tdiv q.num (q.den : Int)

/-- The literal stats suffix appended by MentorAgent.provide_feedback, with
the percentages computed via Python int() from the raw inputs. -/
def stats_suffix (error_rate focus_score : ℚ) : String :=
  " (Accuracy: " ++ toString (pyInt ((1 - error_rate) * 100)) ++ "%, Focus: " ++
    toString (pyInt (focus_score * 100)) ++ "%)"

/-- MentorAgent.provide_feedback. The seeded random.choice call is embedded
as the injected chooser pick (the only nondeterminism source): the chosen
template gets the stats suffix appended. -/
def provide_feedback (pick : List String → String) (error_rate focus_score : ℚ) : String :=
  let key := (accuracy_state error_rate, focus_state focus_score)
  let feedback := pick (templateOptions key)
  feedback ++ stats_suffix error_rate focus_score

/-- Modelled from the spec: the suffix as the spec words it, with the
percentages computed by round() rather than int(). (Python round is
half-to-even; Mathlib round is half-up; the comparison inputs used below are
not half-integers, where all rounding conventions agree.) -/
def stats_suffix_spec (error_rate focus_score : ℚ) : String :=
  " (Accuracy: " ++ toString (round ((1 - error_rate) * 100)) ++ "%, Focus: " ++
    toString (round (focus_score * 100)) ++ "%)"

/-- Outcome of the external speech recognizer inside
ListenAgent.listen_from_file: a transcription, sr.UnknownValueError,
sr.RequestError, or any other exception caught by the outer handler. -/
inductive TranscriptionResult where
  | ok (text : String)
  | unintelligible
  | serviceError
  | audioError
deriving DecidableEq, Repr

/-- Word count of a transcription, len(text.split()): split on spaces and
drop empty pieces. -/
def word_count (s : String) : Nat :=
  ((s.splitOn " ").filter (fun w => w ≠ "")).length

/-- ListenAgent.listen_from_file, returning (error_rate, wpm). The external
difflib SequenceMatcher is passed in as ratio (applied to the lowercased
target and transcription); wpm approximates speed as word count * 12. -/
def listen_from_file (ratio : String → String → ℚ) (target : String)
    (r : TranscriptionResult) : ℚ × ℚ :=
  match r with
  | .ok t => (1 - ratio target.toLower t.toLower, (word_count t) * 12)
  | .unintelligible => (1, 0)
  | .serviceError => (1/2, 0)
  | .audioError => (1, 0)

/-- Outcome of the external MediaPipe face mesh inside
ObserveAgent.analyze_image: a detected nose-tip landmark, no face, or an
exception caught by the handler. -/
inductive DetectionResult where
  | face (x y : ℚ)
  | noFace
  | failure
deriving DecidableEq, Repr

/-- ObserveAgent.analyze_image, returning the focus score. The external
numpy sqrt is passed in as sqrtFn; no face or an exception yields 0.0. -/
def analyze_image (sqrtFn : ℚ → ℚ) (r : DetectionResult) : ℚ :=
  match r with
  | .face x y =>
    let dist_x := |x - 1/2|
    let dist_y := |y - 1/2|
    let dev := sqrtFn (dist_x ^ 2 + dist_y ^ 2)
    max 0 (1 - dev * 2)
  | .noFace => 0
  | .failure => 0

/-- AdaptAgent.adapt: delegates to predict_difficulty on the loaded model. -/
def adapt (m : LinModel) (error_rate wpm focus_score : ℚ) : ℚ :=
  predict_difficulty m error_rate wpm focus_score

/-! ## main.py -/

/-- Result of a Python call that may raise AttributeError. -/
inductive PyResult (α : Type) where
  | ok (a : α)
  | attributeError (missing : String)
deriving DecidableEq, Repr

/-- The method names defined on ListenAgent in agents.py. -/
def ListenAgentMethods : List String := ["listen_from_file"]

/-- The method names defined on ObserveAgent in agents.py. -/
def ObserveAgentMethods : List String := ["analyze_image"]

/-- Python attribute access on an object: produces the implementation when
the name is defined, and raises AttributeError otherwise. -/
def callMethod {α : Type} (methods : List String) (name : String) (impl : α) : PyResult α :=
  if name ∈ methods then .ok impl else .attributeError name

/-- run_session from main.py: calls listener.listen(), then
observer.observe(), then adapt, provide_assistance and provide_feedback,
producing the round's (difficulty, assistance, feedback). Each agent call
goes through Python attribute lookup. -/
def run_session (pick : List String → String) (sqrtFn : ℚ → ℚ)
    (ratio : String → String → ℚ) (m : LinModel) (target : String)
    (tr : TranscriptionResult) (det : DetectionResult) :
    PyResult (ℚ × AssistanceConfig × String) :=
  match callMethod ListenAgentMethods "listen" (listen_from_file ratio target tr) with
  | .attributeError n => .attributeError n
  | .ok ew =>
    match callMethod ObserveAgentMethods "observe" (analyze_image sqrtFn det) with
    | .attributeError n => .attributeError n
    | .ok fs =>
      let next_difficulty := adapt m ew.1 ew.2 fs
      let assistance_config := provide_assistance next_difficulty
      let feedback := provide_feedback pick ew.1 fs
      .ok (next_difficulty, assistance_config, feedback)

/-- C1: for every model and every input signal (error_rate, wpm, focus_score),
predict_difficulty lies in [0.0, 1.0], because the raw prediction is clipped
by max(0.0, min(1.0, raw)); in particular the adversarial input
(error_rate=0, wpm=10000, focus_score=0), whose raw prediction under the
trained model is 101.2, is clipped to exactly 1. -/
theorem C1_difficulty_clipped :
    (∀ (m : LinModel) (e w f : ℚ),
      0 ≤ predict_difficulty m e w f ∧ predict_difficulty m e w f ≤ 1) ∧
    predict_difficulty trainedModel 0 10000 0 = 1 := by
  constructor
  · intro m e w f
    refine ⟨le_max_left 0 _, max_le (by norm_num) (min_le_left 1 _)⟩
  · norm_num [predict_difficulty, predictRaw, trainedModel]

/-! ## Helper lemmas -/

/-- The head of a nonempty list (with default) is a member of it. -/
theorem headD_mem (l : List String) (h : l ≠ []) : l.headD "" ∈ l := by
  cases l with
  | nil => exact absurd rfl h
  | cons a t => simp

/-- A successful dict lookup in a list all of whose values are nonempty
returns a nonempty value. -/
theorem dictGet_ne_nil (key : String × String)
    (l : List ((String × String) × List String)) (hl : ∀ p ∈ l, p.2 ≠ []) :
    ∀ v, dictGet key l = some v → v ≠ [] := by
  induction l with
  | nil => intro v hv; simp [dictGet] at hv
  | cons p rest ih =>
    intro v hv
    by_cases hk : key = p.1
    · have : some p.2 = some v := by
        simpa [dictGet, hk] using hv
      exact Option.some.inj this ▸ hl p (List.mem_cons_self p rest)
    · refine ih (fun q hq => hl q (List.mem_cons_of_mem p hq)) v ?_
      simpa [dictGet, hk] using hv

/-- Every bucket of the template library (and the defensive default) is
nonempty, hence templateOptions always returns a nonempty candidate list. -/
theorem templateOptions_ne_nil (key : String × String) : templateOptions key ≠ [] := by
  unfold templateOptions
  cases h : dictGet key templates with
  | none => simp
  | some v =>
    simpa using dictGet_ne_nil key templates (by decide) v h

/-- C2: provide_assistance is total on ℚ and follows the threshold table with
strict inequalities evaluated top-down: difficulty > 0.7 gives the wide-cue
TTS yellow branch, otherwise difficulty > 0.4 gives the medium-spacing
light-blue branch with TTS off, otherwise the empty configuration; at the
boundary, assist(0.7) takes the middle branch. -/
theorem C2_assistance_thresholds : ∀ d : ℚ,
    (d > 7/10 →
      provide_assistance d = ⟨["syllable_segmentation", "font_spacing_wide"], true, "yellow"⟩) ∧
    (¬ d > 7/10 → d > 4/10 →
      provide_assistance d = ⟨["font_spacing_medium"], false, "light_blue"⟩) ∧
    (¬ d > 7/10 → ¬ d > 4/10 → provide_assistance d = ⟨[], false, "none"⟩) ∧
    provide_assistance (7/10) = ⟨["font_spacing_medium"], false, "light_blue"⟩ := by
  intro d
  refine ⟨?_, ?_, ?_, by norm_num [provide_assistance]⟩
  · intro h; simp [provide_assistance, h]
  · intro h1 h2; simp [provide_assistance, h1, h2]
  · intro h1 h2; simp [provide_assistance, h1, h2]

/-- C2 witness: the three branches at difficulty 0.8, 0.5 and 0.2. -/
theorem C2_assistance_thresholds_witness :
    provide_assistance (8/10) =
      ⟨["syllable_segmentation", "font_spacing_wide"], true, "yellow"⟩ ∧
    provide_assistance (1/2) = ⟨["font_spacing_medium"], false, "light_blue"⟩ ∧
    provide_assistance (2/10) = ⟨[], false, "none"⟩ :=
  ⟨(C2_assistance_thresholds (8/10)).1 (by norm_num),
   (C2_assistance_thresholds (1/2)).2.1 (by norm_num) (by norm_num),
   (C2_assistance_thresholds (2/10)).2.2.1 (by norm_num) (by norm_num)⟩

/-- C3: the feedback selector discretizes exactly by the ordered strict
thresholds: accuracy_state is high when error_rate < 0.2, medium when
error_rate < 0.5, else low; focus_state is high when focus_score > 0.7,
medium when focus_score > 0.4, else low; and (0.1, 0.9) lands in the
(high, high) bucket. -/
theorem C3_feedback_discretization : ∀ e f : ℚ,
    (e < 2/10 → accuracy_state e = "high") ∧
    (¬ e < 2/10 → e < 5/10 → accuracy_state e = "medium") ∧
    (¬ e < 5/10 → accuracy_state e = "low") ∧
    (f > 7/10 → focus_state f = "high") ∧
    (¬ f > 7/10 → f > 4/10 → focus_state f = "medium") ∧
    (¬ f > 4/10 → focus_state f = "low") ∧
    (accuracy_state (1/10), focus_state (9/10)) = ("high", "high") := by
  intro e f
  refine ⟨?_, ?_, ?_, ?_, ?_, ?_, by norm_num [accuracy_state, focus_state]⟩
  · intro h; simp [accuracy_state, h]
  · intro h1 h2; simp [accuracy_state, h1, h2]
  · intro h
    have h1 : ¬ e < 2/10 := fun hc => h (hc.trans (by norm_num))
    simp [accuracy_state, h, h1]
  · intro h; simp [focus_state, h]
  · intro h1 h2; simp [focus_state, h1, h2]
  · intro h
    have h1 : ¬ f > 7/10 := fun hc => h ((by norm_num : (4:ℚ)/10 < 7/10).trans hc)
    simp [focus_state, h, h1]

/-- C3 witness: each discretization bucket at a concrete input. -/
theorem C3_feedback_discretization_witness :
    accuracy_state (1/10) = "high" ∧ accuracy_state (3/10) = "medium" ∧
    accuracy_state (6/10) = "low" ∧ focus_state (9/10) = "high" ∧
    focus_state (1/2) = "medium" ∧ focus_state (1/10) = "low" :=
  ⟨(C3_feedback_discretization (1/10) 0).1 (by norm_num),
   (C3_feedback_discretization (3/10) 0).2.1 (by norm_num) (by norm_num),
   (C3_feedback_discretization (6/10) 0).2.2.1 (by norm_num),
   (C3_feedback_discretization 0 (9/10)).2.2.2.1 (by norm_num),
   (C3_feedback_discretization 0 (1/2)).2.2.2.2.1 (by norm_num) (by norm_num),
   (C3_feedback_discretization 0 (1/10)).2.2.2.2.2.1 (by norm_num)⟩

/-- C4 counterexample: at error_rate = 0.1, focus_score = 0.567 with the
first-element chooser, the message produced by provide_feedback is NOT the
chosen template followed by the round()-based suffix the claim states: the
code truncates 56.7 to 56 where round gives 57. -/
theorem C4_suffix_counterexample :
    provide_feedback (fun l => l.headD "") (1/10) (567/1000) ≠
      (templateOptions (accuracy_state (1/10), focus_state (567/1000))).headD "" ++
        stats_suffix_spec (1/10) (567/1000) := by
  have hacc : accuracy_state (1/10) = "high" := by norm_num [accuracy_state]
  have hfoc : focus_state (567/1000) = "medium" := by norm_num [focus_state]
  have hsuf : stats_suffix (1/10) (567/1000) = " (Accuracy: 90%, Focus: 56%)" := by
    norm_num [stats_suffix, pyInt]; decide
  have hspec : stats_suffix_spec (1/10) (567/1000) = " (Accuracy: 90%, Focus: 57%)" := by
    norm_num [stats_suffix_spec, round_eq]; decide
  have hopt : templateOptions (accuracy_state (1/10), focus_state (567/1000)) =
      ["Good reading! You nailed the words. Try to keep your eyes on the screen a bit more.",
       "Your accuracy is great. Let\x27s work on staying steady next time."] := by
    rw [hacc, hfoc]
    simp [templateOptions, dictGet, templates]
  simp only [provide_feedback, hopt, hsuf, hspec]
  decide

/-- C4 (amended): the feedback message equals a template chosen from the
selected bucket followed by the literal suffix whose percentages are
computed by Python int(), i.e. truncation toward zero of (1-error_rate)*100
and focus_score*100 — not by rounding. -/
theorem C4_message_structure :
    ∀ (pick : List String → String) (e f : ℚ),
    (∀ l, l ≠ [] → pick l ∈ l) →
    ∃ t ∈ templateOptions (accuracy_state e, focus_state f),
      provide_feedback pick e f =
        t ++ (" (Accuracy: " ++ toString (pyInt ((1 - e) * 100)) ++ "%, Focus: " ++
          toString (pyInt (f * 100)) ++ "%)") := by
  intro pick e f hpick
  exact ⟨pick (templateOptions (accuracy_state e, focus_state f)),
    hpick _ (templateOptions_ne_nil _), rfl⟩

/-- C4 witness: the message decomposition at error_rate 0.1, focus 0.9 with
the first-element chooser. -/
theorem C4_message_structure_witness :
    ∃ t ∈ templateOptions (accuracy_state (1/10), focus_state (9/10)),
      provide_feedback (fun l => l.headD "") (1/10) (9/10) =
        t ++ (" (Accuracy: " ++ toString (pyInt ((1 - 1/10) * 100)) ++ "%, Focus: " ++
          toString (pyInt ((9/10) * 100)) ++ "%)") :=
  C4_message_structure (fun l => l.headD "") (1/10) (9/10)
    (fun l hl => headD_mem l hl)

/-- C6: run_session from main.py never completes a round: its very first
agent call looks up the method name listen, which ListenAgent does not
define (the agent defines listen_from_file), so every invocation raises
AttributeError before any difficulty update or feedback is produced —
contradicting the spec requirement that a degraded round still completes. -/
theorem C6_run_session_raises :
    ∀ (pick : List String → String) (sqrtFn : ℚ → ℚ) (ratio : String → String → ℚ)
      (m : LinModel) (target : String) (tr : TranscriptionResult) (det : DetectionResult),
      run_session pick sqrtFn ratio m target tr det = PyResult.attributeError "listen" := by
  intro pick sqrtFn ratio m target tr det
  simp [run_session, callMethod, ListenAgentMethods]

/-- C7: the collaborator-failure fallbacks are exactly the fixed values: an
unintelligible transcription yields (error_rate, wpm) = (1.0, 0), an
unavailable transcription service yields (0.5, 0), and a frame with no
detected face yields focus_score = 0.0. -/
theorem C7_fallback_values :
    ∀ (ratio : String → String → ℚ) (target : String) (sqrtFn : ℚ → ℚ),
      listen_from_file ratio target .unintelligible = (1, 0) ∧
      listen_from_file ratio target .serviceError = (1/2, 0) ∧
      analyze_image sqrtFn .noFace = 0 := by
  intro ratio target sqrtFn
  exact ⟨rfl, rfl, rfl⟩

/-- C8: with the random source fixed (the injected chooser standing for the
seeded random.choice), two calls to provide_feedback with identical inputs
return identical output strings. -/
theorem C8_feedback_deterministic :
    ∀ (pick₁ pick₂ : List String → String) (e₁ e₂ f₁ f₂ : ℚ),
      pick₁ = pick₂ → e₁ = e₂ → f₁ = f₂ →
      provide_feedback pick₁ e₁ f₁ = provide_feedback pick₂ e₂ f₂ := by
  intro pick₁ pick₂ e₁ e₂ f₁ f₂ hp he hf
  rw [hp, he, hf]

/-- C8 witness: two identical calls at error_rate 0.1, focus 0.9 with the
first-element chooser agree. -/
theorem C8_feedback_deterministic_witness :
    provide_feedback (fun l => l.headD "") (1/10) (9/10) =
      provide_feedback (fun l => l.headD "") (1/10) (9/10) :=
  C8_feedback_deterministic (fun l => l.headD "") (fun l => l.headD "")
    (1/10) (1/10) (9/10) (9/10) rfl rfl rfl

/-- C9: the coefficients obtained by ordinary least-squares on the seed
dataset minimize the OLS objective (they attain loss 0, the 4×4 system
being uniquely solvable), and the resulting unclipped prediction at each of
the four in-sample points is within ±0.05 of that point's target. -/
theorem C9_seed_training :
    (∀ m : LinModel, olsLoss trainedModel ≤ olsLoss m) ∧
    (∀ s : Sample, s ∈ seedSamples →
      |predictRaw trainedModel s.error_rate s.wpm s.focus_score - s.target| ≤ 5/100) := by
  constructor
  · intro m
    have h0 : olsLoss trainedModel = 0 := by
      norm_num [olsLoss, seedSamples, predictRaw, trainedModel]
    rw [h0]
    refine List.sum_nonneg ?_
    intro x hx
    simp only [List.mem_map] at hx
    obtain ⟨s, -, rfl⟩ := hx
    positivity
  · intro s hs
    simp only [seedSamples, List.mem_cons, List.not_mem_nil, or_false] at hs
    rcases hs with rfl | rfl | rfl | rfl <;>
      norm_num [predictRaw, trainedModel]

/-- C9 witness: the in-sample bound at the first seed point (0, 150, 0.9)
with target 0.9. -/
theorem C9_seed_training_witness :
    |predictRaw trainedModel (0 : ℚ) 150 (9/10) - 9/10| ≤ 5/100 :=
  C9_seed_training.2 ⟨0, 150, 9/10, 9/10⟩ (by simp [seedSamples])

/-- C10: unpickling a pickled model reproduces every predict_difficulty
output exactly, and when an artifact already exists at the model path,
load_model returns its unpickled contents with the trained flag false,
skipping training entirely. -/
theorem C10_roundtrip_and_skip :
    (∀ (m : LinModel) (e w f : ℚ),
      (pickle_load (pickle_dump m)).map (fun m2 => predict_difficulty m2 e w f) =
        some (predict_difficulty m e w f)) ∧
    (∀ (bytes : List ℚ) (m : LinModel),
      pickle_load bytes = some m → load_model (some bytes) = some (m, false)) := by
  constructor
  · intro m e w f
    rfl
  · intro bytes m h
    simp [load_model, h]

/-- C10 witness: the artifact written for the trained model loads back as
that model with training skipped. -/
theorem C10_roundtrip_and_skip_witness :
    load_model (some (pickle_dump trainedModel)) = some (trainedModel, false) :=
  C10_roundtrip_and_skip.2 (pickle_dump trainedModel) trainedModel rfl

end ReadingAssistant
